import Mathlib

set_option maxRecDepth 8192

/-!
Verification of the text-classification core of the MisinformationAITool
repository (`MisInfomation.py`), shallowly embedded in Lean 4.

The embedding models:
* the decision policy of `MisinformationDetector.predict` (lines 86-91);
* the empty-input bypass of `predict` (lines 78-79);
* the whitespace cleanup and 5000-character truncation of
  `WebScraperThread.run` (lines 127-133);
* the load / train / save flow of `load_or_create_model` (lines 26-74),
  with disk state made explicit;
* the persisted-pipeline data model and its serialization (the source
  uses `pickle` on a single sklearn `Pipeline` object).

Probabilities are modelled as rationals (`ℚ`); the Python floats carry
exact decimal threshold constants, which `ℚ` represents exactly.
-/

/-- The three risk tiers of the decision policy (§4.4 of the design:
LOW < MODERATE < HIGH). -/
inductive Tier where
  | low
  | moderate
  | high
deriving DecidableEq

/-- Numeric rank realising the ordering LOW < MODERATE < HIGH. -/
def Tier.rank : Tier → Nat
  | .low => 0
  | .moderate => 1
  | .high => 2

/-- The human-facing verdict string each tier maps to, verbatim from
`predict` (lines 87, 89, 91). -/
def Tier.label : Tier → String
  | .high => "HIGH RISK - Likely Misinformation"
  | .moderate => "MODERATE RISK - Requires Verification"
  | .low => "LOW RISK - Appears Reliable"

/-- Decision policy of `predict` (lines 86-91): first-match-wins strict
comparisons `> 0.7` then `> 0.4`, else LOW. -/
def tierOf (p : ℚ) : Tier :=
  if 7/10 < p then .high
  else if 4/10 < p then .moderate
  else .low

/-- Python `str.strip()` whitespace (ASCII part: space, tab, newline,
carriage return, vertical tab, form feed). -/
def isPyWS (c : Char) : Bool :=
  c == ' ' || c == '\t' || c == '\n' || c == '\r' || c == '\x0b' || c == '\x0c'

/-- Python `str.strip()`: drop leading and trailing whitespace. -/
def pyStrip (s : String) : String :=
  String.mk (((s.toList.dropWhile isPyWS).reverse.dropWhile isPyWS).reverse)

/-- Model of `MisinformationDetector.predict` (lines 76-93).  The fitted sklearn
pipeline enters as the function `proba` giving the misinformation class
probability `predict_proba(...)[0][1]` for a text; `predict` is
parametric in it because the source calls the pipeline opaquely.
If `not text.strip()` the classifier is bypassed and
`(0.5, "No content to analyze")` is returned (lines 78-79); otherwise
the probability is thresholded into a verdict string (lines 82-93).
Note the method passes `text` to the pipeline as received: it performs
no normalization or truncation of its own. -/
def predict (proba : String → ℚ) (text : String) : ℚ × String :=
  if pyStrip text = "" then (1/2, "No content to analyze")
  else
    let p := proba text
    (p, (tierOf p).label)

/-- Python line-break characters recognised by `str.splitlines`
(other than the two-character sequence `"\r\n"`, handled separately). -/
def isPyLineBreak (c : Char) : Bool :=
  c == '\n' || c == '\r' || c == '\x0b' || c == '\x0c' ||
  c == '\x1c' || c == '\x1d' || c == '\x1e' || c == '\x85' ||
  c == '\u2028' || c == '\u2029'

/-- Worker for `pySplitlines`: accumulate the current line (reversed). -/
def pySplitlinesAux : List Char → List Char → List (List Char)
  | [], acc => if acc.isEmpty then [] else [acc.reverse]
  | '\r' :: '\n' :: rest, acc => acc.reverse :: pySplitlinesAux rest []
  | c :: rest, acc =>
    if isPyLineBreak c then acc.reverse :: pySplitlinesAux rest []
    else pySplitlinesAux rest (c :: acc)

/-- Python `str.splitlines()`: split at line boundaries, producing no
trailing empty line (`"a\n".splitlines() = ["a"]`, `"".splitlines() = []`). -/
def pySplitlines (s : String) : List String :=
  (pySplitlinesAux s.toList []).map String.mk

/-- The cleanup of `WebScraperThread.run` (lines 127-129): strip each
line, split each on the two-space separator, strip the pieces, and join
the non-empty chunks with single spaces.  (`String.splitOn` matches
Python `str.split(sep)`: left-to-right, non-overlapping, keeping empty
pieces.) -/
def scrapeJoin (text : String) : String :=
  let lines := (pySplitlines text).map pyStrip
  let chunks := lines.flatMap (fun line => (line.splitOn "  ").map pyStrip)
  String.intercalate " " (chunks.filter (fun c => c ≠ ""))

/-- The length cap of `WebScraperThread.run` (lines 131-133): texts over
5000 characters are cut to 5000 and get the `"..."` marker. -/
def limitText (t : String) : String :=
  if 5000 < t.length then t.take 5000 ++ "..." else t

/-- Full text cleanup of `WebScraperThread.run` (lines 127-133): join
then truncate.  This runs only on the URL-fetch path. -/
def scrapeClean (text : String) : String :=
  limitText (scrapeJoin text)

/-- Maximal runs of non-whitespace characters, accumulating the current
run reversed (so joining them with single spaces collapses whitespace). -/
def nonWSRunsAux : List Char → List Char → List (List Char)
  | [], acc => if acc.isEmpty then [] else [acc.reverse]
  | c :: rest, acc =>
    if isPyWS c then
      if acc.isEmpty then nonWSRunsAux rest []
      else acc.reverse :: nonWSRunsAux rest []
    else nonWSRunsAux rest (c :: acc)

/-- Modelled from the spec (§4.1 Normalizer), for comparison with the
code: collapse every whitespace run to a single space, strip the ends,
then truncate at 5000 characters with the marker.  The claim under test
says the core applies this before classification. -/
def specNormalize (s : String) : String :=
  limitText (String.intercalate " " ((nonWSRunsAux s.toList []).map String.mk))

/-- A pipeline probability function used in concrete counterexamples:
reports 1 exactly on the two-space text `"a  b"`. -/
def probeProba : String → ℚ :=
  fun s => if s = "a  b" then 1 else 0

/-- Modelled from the spec (§4.2): the sklearn `TfidfVectorizer` default
tokenizer (not in src/) lowercases and keeps maximal alphanumeric runs
of length at least two.  Worker: group maximal alphanumeric runs,
accumulating the current run reversed. -/
def tokenRunsAux : List Char → List Char → List (List Char)
  | [], acc => if acc.isEmpty then [] else [acc.reverse]
  | c :: rest, acc =>
    if c.isAlphanum then tokenRunsAux rest (c :: acc)
    else if acc.isEmpty then tokenRunsAux rest []
    else acc.reverse :: tokenRunsAux rest []

/-- Modelled from the spec (§4.2): tokenize a text for the vectorizer —
lowercase, take alphanumeric runs, keep those of length ≥ 2. -/
def tokenize (s : String) : List String :=
  ((tokenRunsAux (s.toList.map Char.toLower) []).filter (fun w => 2 ≤ w.length)).map String.mk

/-- Modelled from the spec (§4.2): the fixed English stop-word set of
`TfidfVectorizer(stop_words='english')` (line 64), abridged to common
members; the claims under verification do not depend on its exact
extent, only on it being one fixed set. -/
def stopWords : List String :=
  ["a", "an", "and", "are", "as", "at", "be", "by", "can", "for", "from",
   "has", "have", "in", "is", "it", "its", "of", "on", "that", "the",
   "to", "was", "were", "will", "with"]

/-- Insert into a list sorted by the Boolean relation `le`. -/
def insertRanked (le : α → α → Bool) (a : α) : List α → List α
  | [] => [a]
  | b :: l => if le a b then a :: b :: l else b :: insertRanked le a l

/-- Insertion sort by the Boolean relation `le`. -/
def sortRanked (le : α → α → Bool) : List α → List α
  | [] => []
  | a :: l => insertRanked le a (sortRanked le l)

/-- Vocabulary order: frequency descending, ties broken lexicographically
(a stable order, per §4.2's determinism requirement). -/
def vocabLe (a b : String × Nat) : Bool :=
  decide (b.2 < a.2) || (a.2 == b.2 && decide (a.1 ≤ b.1))

/-- Modelled from the spec (§4.2): build the vocabulary from the corpus —
tokens of all documents, stop words removed, ranked by frequency, capped
at the 1000 most frequent terms (`max_features=1000`, line 64). -/
def buildVocab (docs : List String) : List String :=
  let toks := (docs.flatMap tokenize).filter (fun t => t ∉ stopWords)
  let counted := toks.dedup.map (fun t => (t, toks.count t))
  ((sortRanked vocabLe counted).map (fun x => x.1)).take 1000

/-- The fitted vectorizer half of the persisted pipeline (§3 Vocabulary
and document-frequency statistics, from which the idf weights derive). -/
structure VecParams where
  vocab : List String
  df : List Nat
  nDocs : Nat
deriving DecidableEq

/-- The fitted classifier half of the persisted pipeline (§3
ClassifierParameters as sufficient statistics: class counts for the
priors, per-class token counts for the smoothed likelihoods). -/
structure ClfParams where
  n0 : Nat
  n1 : Nat
  tok0 : List Nat
  tok1 : List Nat
deriving DecidableEq

/-- Spec §3 FittedPipeline: the (Vectorizer, Classifier) pair, the single
unit of persistence (the source pickles one sklearn `Pipeline` object,
lines 63-72). -/
structure FittedPipeline where
  vec : VecParams
  clf : ClfParams
deriving DecidableEq

/-- Modelled from the spec (§4.2 fit mode): fit the vectorizer on the
corpus texts — vocabulary plus per-term document frequencies. -/
def vecFit (texts : List String) : VecParams :=
  let vocab := buildVocab texts
  { vocab := vocab
    df := vocab.map (fun t => (texts.filter (fun d => t ∈ tokenize d)).length)
    nDocs := texts.length }

/-- Per-vocabulary-slot occurrence counts of a token list. -/
def tokCount (vocab : List String) (toks : List String) : List Nat :=
  vocab.map (fun t => toks.count t)

/-- Sum token-count vectors of all documents carrying the given label. -/
def classTokCount (vocab : List String) (pairs : List (String × Nat)) (lab : Nat) : List Nat :=
  ((pairs.filter (fun x => x.2 == lab)).map (fun x => tokCount vocab (tokenize x.1))).foldl
    (List.zipWith (· + ·)) (List.replicate vocab.length 0)

/-- Modelled from the spec (§4.3 fit): fit the classifier against the
already-fitted vectorizer's vocabulary — class counts (label 0 =
reliable, label 1 = misinformation, line 59-60 of the source) and
per-class token counts. -/
def clfFit (vp : VecParams) (texts : List String) (labels : List Nat) : ClfParams :=
  let pairs := texts.zip labels
  { n0 := (pairs.filter (fun x => x.2 == 0)).length
    n1 := (pairs.filter (fun x => x.2 == 1)).length
    tok0 := classTokCount vp.vocab pairs 0
    tok1 := classTokCount vp.vocab pairs 1 }

/-- Spec §4.6 Training Pipeline / `Pipeline.fit` (line 68): fit the
vectorizer, then the classifier against it, on the same corpus, and
return them as one unit. -/
def trainPipeline (texts : List String) (labels : List Nat) : FittedPipeline :=
  let v := vecFit texts
  ⟨v, clfFit v texts labels⟩

/-- The bundled seed corpus texts, verbatim from lines 41-57. -/
def trainingTexts : List String :=
  ["Scientists have confirmed that vaccines are safe and effective",
   "The earth is round as proven by centuries of scientific evidence",
   "Climate change is supported by overwhelming scientific consensus",
   "Regular exercise and healthy diet improve overall health",
   "Smoking increases risk of lung cancer according to medical studies",
   "The government is putting microchips in vaccines to track people",
   "The earth is flat and NASA is lying to everyone",
   "Climate change is a hoax created by politicians",
   "Drinking bleach can cure coronavirus",
   "5G towers are spreading deadly radiation and causing illness",
   "All mainstream media is fake news controlled by secret societies",
   "Essential oils can cure any disease including cancer",
   "The moon landing was filmed in a Hollywood studio",
   "Chemtrails are government mind control chemicals",
   "Ancient aliens built the pyramids because humans are too primitive"]

/-- The seed corpus labels, verbatim from line 60 (0 = reliable,
1 = misinformation). -/
def trainingLabels : List Nat :=
  [0, 0, 0, 0, 0, 1, 1, 1, 1, 1, 1, 1, 1, 1, 1]

/-- The pipeline `load_or_create_model` trains on a cold start
(lines 63-68): fitted on the bundled seed corpus. -/
def seedPipeline : FittedPipeline :=
  trainPipeline trainingTexts trainingLabels

/-- The state of `misinformation_model.pkl` on disk: absent
(`os.path.exists` false, line 30), present but failing to unpickle
(the `except` of lines 36-37), or present and unpickling to a
pipeline. -/
inductive Artifact where
  | absent
  | corrupt
  | good (p : FittedPipeline)
deriving DecidableEq

/-- Explicit disk state for `load_or_create_model`: the artifact plus
whether the file can be (re)written — `open(model_file, 'wb')` at
line 71 raises when it cannot. -/
structure Store where
  artifact : Artifact
  writable : Bool
deriving DecidableEq

/-- Model of `MisinformationDetector.load_or_create_model` (lines 26-74) with
disk state explicit.  A good artifact is loaded and returned as is
(lines 30-35).  Otherwise — absent, or corrupt with the exception
swallowed (lines 36-37) — the seed pipeline is trained and saved
(lines 63-72); the save at lines 70-72 sits outside any `try`, so a
write failure propagates as `Except.error`.  The returned `Bool`
records whether training ran. -/
def loadOrCreateModel (st : Store) : Except String (FittedPipeline × Store × Bool) :=
  match st.artifact with
  | .good p => .ok (p, st, false)
  | _ =>
    if st.writable then .ok (seedPipeline, ⟨.good seedPipeline, st.writable⟩, true)
    else .error "save failed"

/-- A fresh process's first evaluation: `MisinformationDetector()` runs
`load_or_create_model` (line 24), then `predict` is called on the
resulting pipeline.  `proba` stands for the fitted pipeline's
`predict_proba` (line 82). -/
def evaluateFresh (proba : FittedPipeline → String → ℚ) (st : Store) (text : String) :
    Except String ((ℚ × String) × Store) :=
  match loadOrCreateModel st with
  | .ok (p, st2, _) => .ok (predict (proba p) text, st2)
  | .error e => .error e

/-- Spec §3: the Vectorizer and Classifier are fitted together when they come
from one `trainPipeline` run on one corpus: the classifier was fitted
against the very vectorizer fitted on the same texts. -/
def FittedTogether (p : FittedPipeline) : Prop :=
  ∃ texts labels, p.vec = vecFit texts ∧ p.clf = clfFit (vecFit texts) texts labels

/-- Disk states reachable by the program's own dynamics: a cold start
(no artifact, or a corrupt one), or the result of a
`load_or_create_model` run from a reachable state. -/
inductive Reach : Store → Prop where
  | coldAbsent (w : Bool) : Reach ⟨.absent, w⟩
  | coldCorrupt (w : Bool) : Reach ⟨.corrupt, w⟩
  | step (st st2 : Store) (p : FittedPipeline) (b : Bool) :
      Reach st → loadOrCreateModel st = .ok (p, st2, b) → Reach st2

/-- Modelled from the spec (§6): a token of the opaque persisted blob
(`pickle.dump`, line 72, serializes the pipeline object's fields). -/
inductive Tok where
  | n (v : Nat)
  | s (v : String)
deriving DecidableEq

/-- Serialize a `Nat` list with a length header. -/
def encNatList (l : List Nat) : List Tok :=
  Tok.n l.length :: l.map Tok.n

/-- Serialize a `String` list with a length header. -/
def encStrList (l : List String) : List Tok :=
  Tok.n l.length :: l.map Tok.s

/-- Modelled from the spec (§6): `pickle.dump` of the fitted pipeline —
flatten all fields to a token stream. -/
def encodePipeline (p : FittedPipeline) : List Tok :=
  encStrList p.vec.vocab ++ encNatList p.vec.df ++ [Tok.n p.vec.nDocs] ++
  [Tok.n p.clf.n0, Tok.n p.clf.n1] ++ encNatList p.clf.tok0 ++ encNatList p.clf.tok1

/-- Read one `Nat` token. -/
def decNat : List Tok → Option (Nat × List Tok)
  | Tok.n v :: r => some (v, r)
  | _ => none

/-- Read `k` `Nat` tokens. -/
def decNats : Nat → List Tok → Option (List Nat × List Tok)
  | 0, r => some ([], r)
  | k + 1, Tok.n v :: r =>
    match decNats k r with
    | some (l, r2) => some (v :: l, r2)
    | none => none
  | _ + 1, _ => none

/-- Read `k` `String` tokens. -/
def decStrs : Nat → List Tok → Option (List String × List Tok)
  | 0, r => some ([], r)
  | k + 1, Tok.s v :: r =>
    match decStrs k r with
    | some (l, r2) => some (v :: l, r2)
    | none => none
  | _ + 1, _ => none

/-- Read a length-headed `Nat` list. -/
def decNatList (r : List Tok) : Option (List Nat × List Tok) :=
  match decNat r with
  | some (k, r2) => decNats k r2
  | none => none

/-- Read a length-headed `String` list. -/
def decStrList (r : List Tok) : Option (List String × List Tok) :=
  match decNat r with
  | some (k, r2) => decStrs k r2
  | none => none

/-- Modelled from the spec (§6): `pickle.load` of the artifact
(line 33) — parse the token stream back into a pipeline, rejecting
malformed or trailing data (`none` models the unpickling exception
caught at lines 36-37). -/
def decodePipeline (r : List Tok) : Option FittedPipeline := do
  let (vocab, r) ← decStrList r
  let (df, r) ← decNatList r
  let (nDocs, r) ← decNat r
  let (n0, r) ← decNat r
  let (n1, r) ← decNat r
  let (tok0, r) ← decNatList r
  let (tok1, r) ← decNatList r
  if r = [] then pure ⟨⟨vocab, df, nDocs⟩, ⟨n0, n1, tok0, tok1⟩⟩ else none

/-- The mutable state of a `MisinformationDetector` instance that
`predict` can see: the fitted pipeline attribute set by
`load_or_create_model` (lines 20-24). -/
structure Detector where
  pipeline : FittedPipeline
deriving DecidableEq

/-- State-passing translation of the `predict` method (lines 76-93): the
body reads `self.pipeline` and local variables only and contains no
assignment to `self`, so the translation returns the instance state it
received. -/
def predictM (proba : FittedPipeline → String → ℚ) (d : Detector) (text : String) :
    (ℚ × String) × Detector :=
  (predict (proba d.pipeline) text, d)

/-- Modelled from the spec (§4.3): `MultinomialNB.predict_proba` (not in
src/) computes per-class scores as exponentials of class log-prior plus
summed token log-likelihoods — hence positive — and normalizes them to
a distribution over (reliable, misinformation).  The per-class
unnormalized scores enter as `s0`, `s1`. -/
def predictProba (s0 s1 : String → ℚ) (t : String) : ℚ × ℚ :=
  (s0 t / (s0 t + s1 t), s1 t / (s0 t + s1 t))

/-- The misinformation-class probability `predict_proba(...)[0][1]`
(line 83). -/
def nbProba (s0 s1 : String → ℚ) (t : String) : ℚ :=
  (predictProba s0 s1 t).2

/-- A concrete positive score function, for instantiating theorems. -/
def oneScore : String → ℚ := fun _ => 1

/-- A second concrete positive score function. -/
def twoScore : String → ℚ := fun _ => 2

/-- C1: the decision policy assigns tiers by first-match-wins strict
comparisons — p > 0.7 gives HIGH, else p > 0.4 gives MODERATE, else
LOW; in particular p = 0.7 maps to MODERATE and p = 0.4 maps to LOW. -/
theorem c1_policy_thresholds :
    (∀ p : ℚ, (tierOf p = Tier.high ↔ 7/10 < p) ∧
      (tierOf p = Tier.moderate ↔ 4/10 < p ∧ p ≤ 7/10) ∧
      (tierOf p = Tier.low ↔ p ≤ 4/10)) ∧
    tierOf (7/10) = Tier.moderate ∧ tierOf (4/10) = Tier.low := by
  refine ⟨fun p => ?_, by norm_num [tierOf], by norm_num [tierOf]⟩
  unfold tierOf
  split_ifs with h1 h2 <;> refine ⟨?_, ?_, ?_⟩ <;> simp_all
  all_goals linarith

/-- Witness for C1 at a concrete probability. -/
theorem c1_policy_thresholds_wit : tierOf (3/4) = Tier.high :=
  (c1_policy_thresholds.1 (3/4)).1.mpr (by norm_num)

/-- C2: empty or whitespace-only input returns probability exactly 0.5
with the distinguished "no content" verdict, independently of the
pipeline (which is never invoked), with no failure surfaced. -/
theorem c2_empty_input (proba proba2 : String → ℚ) (text : String)
    (h : pyStrip text = "") :
    predict proba text = (1/2, "No content to analyze") ∧
    predict proba text = predict proba2 text := by
  simp [predict, h]

/-- Witness for C2 on a whitespace-only text and two distinct pipelines. -/
theorem c2_empty_input_wit :
    predict oneScore "  \t " = (1/2, "No content to analyze") ∧
    predict oneScore "  \t " = predict twoScore "  \t " :=
  c2_empty_input oneScore twoScore "  \t " (by decide)

/-- C6: the decision policy is monotone — a larger probability never
gets a smaller tier, under the ordering LOW < MODERATE < HIGH. -/
theorem c6_policy_monotone :
    (∀ p1 p2 : ℚ, p1 ≤ p2 → (tierOf p1).rank ≤ (tierOf p2).rank) ∧
    Tier.low.rank < Tier.moderate.rank ∧ Tier.moderate.rank < Tier.high.rank := by
  refine ⟨fun p1 p2 h => ?_, by norm_num [Tier.rank], by norm_num [Tier.rank]⟩
  unfold tierOf
  split_ifs <;> simp [Tier.rank] <;> linarith

/-- Witness for C6 at a concrete pair of probabilities. -/
theorem c6_policy_monotone_wit :
    (tierOf (1/3)).rank ≤ (tierOf (1/2)).rank :=
  c6_policy_monotone.1 (1/3) (1/2) (by norm_num)

/-- C10: `predict` leaves the detector state unchanged, so a second call
with the same text and pipeline returns the same (probability, verdict)
pair. -/
theorem c10_predict_pure (proba : FittedPipeline → String → ℚ) (d : Detector) (text : String) :
    (predictM proba d text).2 = d ∧
    (predictM proba ((predictM proba d text).2) text).1 = (predictM proba d text).1 :=
  ⟨rfl, rfl⟩

/-- Counterexample for C3: the core's `predict` does not normalize its
input before classification — on the two-space text `"a  b"` the
pipeline sees the raw text, not the collapsed `"a b"`, so classifying
the raw and the normalized text can differ. -/
theorem c3_cex :
    ¬ (∀ (proba : String → ℚ) (text : String),
        predict proba text = predict proba (specNormalize text)) := by
  intro h
  have h2 := h probeProba "a  b"
  revert h2
  decide

/-- C3 (amended): the core performs no whitespace collapsing and no
truncation — for non-empty input, `predict` hands the text to the
classifier exactly as received; the whitespace cleanup and the
5000-character cap with the `"..."` marker are applied by the fetch
layer (`WebScraperThread.run`), hence only on the URL path. -/
theorem c3_amended :
    (∀ (proba : String → ℚ) (text : String), pyStrip text ≠ "" →
      predict proba text = (proba text, (tierOf (proba text)).label)) ∧
    (∀ text : String, scrapeClean text = limitText (scrapeJoin text)) ∧
    (∀ t : String, 5000 < t.length → limitText t = t.take 5000 ++ "...") ∧
    (∀ t : String, t.length ≤ 5000 → limitText t = t) := by
  refine ⟨fun proba text h => ?_, fun text => rfl, fun t h => ?_, fun t h => ?_⟩
  · simp [predict, h]
  · unfold limitText
    rw [if_pos h]
  · unfold limitText
    rw [if_neg (not_lt.mpr h)]

/-- Witness for C3 (amended): a non-empty text passes through unchanged;
a 5001-character text is truncated with the marker; a short text is
not. -/
theorem c3_amended_wit :
    predict oneScore "hello" = (oneScore "hello", (tierOf (oneScore "hello")).label) ∧
    limitText (String.mk (List.replicate 5001 'a')) =
      (String.mk (List.replicate 5001 'a')).take 5000 ++ "..." ∧
    limitText "hi" = "hi" :=
  ⟨c3_amended.1 oneScore "hello" (by decide),
   c3_amended.2.2.1 (String.mk (List.replicate 5001 'a'))
     (by rw [String.length_mk, List.length_replicate]; norm_num),
   c3_amended.2.2.2 "hi" (by decide)⟩

/-- C4: on a cold start (artifact absent or corrupt) with a writable
disk, `load_or_create_model` trains the seed pipeline, persists it, a
subsequent load returns it without retraining, and the first evaluate
call of the fresh process succeeds. -/
theorem c4_cold_start (st : Store)
    (h : st.artifact = Artifact.absent ∨ st.artifact = Artifact.corrupt)
    (hw : st.writable = true) :
    loadOrCreateModel st =
      .ok (seedPipeline, ⟨Artifact.good seedPipeline, true⟩, true) ∧
    loadOrCreateModel ⟨Artifact.good seedPipeline, true⟩ =
      .ok (seedPipeline, ⟨Artifact.good seedPipeline, true⟩, false) ∧
    ∀ (proba : FittedPipeline → String → ℚ) (text : String),
      evaluateFresh proba st text =
        .ok (predict (proba seedPipeline) text, ⟨Artifact.good seedPipeline, true⟩) := by
  obtain ⟨a, w⟩ := st
  cases hw
  rcases h with h | h <;> cases h <;> exact ⟨rfl, rfl, fun _ _ => rfl⟩

/-- Witness for C4 from the absent-artifact cold start. -/
theorem c4_cold_start_wit :
    loadOrCreateModel ⟨Artifact.absent, true⟩ =
      .ok (seedPipeline, ⟨Artifact.good seedPipeline, true⟩, true) ∧
    loadOrCreateModel ⟨Artifact.good seedPipeline, true⟩ =
      .ok (seedPipeline, ⟨Artifact.good seedPipeline, true⟩, false) := by
  have h := c4_cold_start ⟨Artifact.absent, true⟩ (Or.inl rfl) rfl
  exact ⟨h.1, h.2.1⟩

/-- Counterexample for C5: a save failure is not contained — on a cold
start with an unwritable model file, `load_or_create_model` propagates
the write error (the save at lines 70-72 sits outside any `try`), so no
classification result is returned. -/
theorem c5_cex :
    loadOrCreateModel ⟨Artifact.absent, false⟩ = .error "save failed" := rfl

/-- C5 (amended): load failures are contained — a corrupt or absent
artifact degrades to retraining when the disk is writable, and an
already-good artifact is served without any save (so an unwritable disk
is then harmless) — but a save failure on the cold-start training path
propagates as an unhandled error and prevents any classification
result in that process. -/
theorem c5_amended :
    (∀ st : Store, st.writable = true →
      ∃ p st2 b, loadOrCreateModel st = .ok (p, st2, b)) ∧
    (∀ (p : FittedPipeline) (w : Bool),
      loadOrCreateModel ⟨Artifact.good p, w⟩ = .ok (p, ⟨Artifact.good p, w⟩, false)) ∧
    (∀ st : Store, st.writable = false →
      (st.artifact = Artifact.absent ∨ st.artifact = Artifact.corrupt) →
      loadOrCreateModel st = .error "save failed") := by
  refine ⟨fun st hw => ?_, fun p w => rfl, fun st hw h => ?_⟩
  · obtain ⟨a, w⟩ := st
    cases hw
    cases a
    · exact ⟨seedPipeline, _, _, rfl⟩
    · exact ⟨seedPipeline, _, _, rfl⟩
    · exact ⟨_, _, _, rfl⟩
  · obtain ⟨a, w⟩ := st
    cases hw
    rcases h with h | h <;> cases h <;> rfl

/-- Witness for C5 (amended) at concrete disk states. -/
theorem c5_amended_wit :
    (∃ p st2 b, loadOrCreateModel ⟨Artifact.corrupt, true⟩ = .ok (p, st2, b)) ∧
    loadOrCreateModel ⟨Artifact.good seedPipeline, false⟩ =
      .ok (seedPipeline, ⟨Artifact.good seedPipeline, false⟩, false) ∧
    loadOrCreateModel ⟨Artifact.corrupt, false⟩ = .error "save failed" := by
  have h := c5_amended
  exact ⟨h.1 ⟨Artifact.corrupt, true⟩ rfl, h.2.1 seedPipeline false,
    h.2.2 ⟨Artifact.corrupt, false⟩ rfl (Or.inr rfl)⟩

/-- C7: for every text, the probability `evaluate` returns lies in
[0,1], and the two class probabilities of the classifier sum to 1
within 1e-6 (here: exactly, up to the stated tolerance). -/
theorem c7_probability_bounds (s0 s1 : String → ℚ)
    (h0 : ∀ t, 0 < s0 t) (h1 : ∀ t, 0 < s1 t) (text : String) :
    (0 ≤ (predict (nbProba s0 s1) text).1 ∧ (predict (nbProba s0 s1) text).1 ≤ 1) ∧
    |(predictProba s0 s1 text).1 + (predictProba s0 s1 text).2 - 1| ≤ 1/1000000 := by
  have hs : 0 < s0 text + s1 text := add_pos (h0 text) (h1 text)
  constructor
  · by_cases hc : pyStrip text = ""
    · simp [predict, hc]
      norm_num
    · have hp : predict (nbProba s0 s1) text =
          (nbProba s0 s1 text, (tierOf (nbProba s0 s1 text)).label) := by
        simp [predict, hc]
      rw [hp]
      unfold nbProba predictProba
      dsimp only
      constructor
      · exact div_nonneg (h1 text).le hs.le
      · rw [div_le_one hs]
        linarith [h0 text]
  · unfold predictProba
    rw [div_add_div_same, div_self hs.ne.symm]
    norm_num

/-- Witness for C7 with concrete positive class scores. -/
theorem c7_probability_bounds_wit :
    (0 ≤ (predict (nbProba oneScore twoScore) "hello").1 ∧
      (predict (nbProba oneScore twoScore) "hello").1 ≤ 1) ∧
    |(predictProba oneScore twoScore "hello").1 +
      (predictProba oneScore twoScore "hello").2 - 1| ≤ 1/1000000 :=
  c7_probability_bounds oneScore twoScore
    (fun _ => by norm_num [oneScore]) (fun _ => by norm_num [twoScore]) "hello"

/-- Reading back `k` serialized `Nat`s returns them with the rest. -/
theorem decNats_enc (l : List Nat) (r : List Tok) :
    decNats l.length (l.map Tok.n ++ r) = some (l, r) := by
  induction l with
  | nil => rfl
  | cons a l ih => simp [decNats, ih]

/-- Reading back `k` serialized `String`s returns them with the rest. -/
theorem decStrs_enc (l : List String) (r : List Tok) :
    decStrs l.length (l.map Tok.s ++ r) = some (l, r) := by
  induction l with
  | nil => rfl
  | cons a l ih => simp [decStrs, ih]

/-- Reading back a length-headed `Nat` list returns it with the rest. -/
theorem decNatList_enc (l : List Nat) (r : List Tok) :
    decNatList (encNatList l ++ r) = some (l, r) := by
  simp [encNatList, decNatList, decNat, decNats_enc]

/-- Reading back a length-headed `String` list returns it with the rest. -/
theorem decStrList_enc (l : List String) (r : List Tok) :
    decStrList (encStrList l ++ r) = some (l, r) := by
  simp [encStrList, decStrList, decNat, decStrs_enc]

/-- Reading back a length-headed `Nat` list at the end of the stream. -/
theorem decNatList_enc_nil (l : List Nat) :
    decNatList (encNatList l) = some (l, []) := by
  have h := decNatList_enc l []
  simpa using h

/-- C8: persistence round-trips — decoding an encoded pipeline yields it
back exactly, so every classification output (probability and verdict)
computed from the reloaded pipeline equals that of the original on
every probe text. -/
theorem c8_round_trip (p : FittedPipeline) :
    decodePipeline (encodePipeline p) = some p ∧
    ∀ (proba : FittedPipeline → String → ℚ) (probe : String),
      (decodePipeline (encodePipeline p)).map (fun q => predict (proba q) probe) =
        some (predict (proba p) probe) := by
  have h : decodePipeline (encodePipeline p) = some p := by
    obtain ⟨⟨vocab, df, nDocs⟩, ⟨n0, n1, tok0, tok1⟩⟩ := p
    simp [encodePipeline, decodePipeline, List.append_assoc,
      decStrList_enc, decNatList_enc, decNatList_enc_nil, decNat, Option.bind]
  exact ⟨h, fun proba probe => by rw [h]; rfl⟩

/-- After a successful `load_or_create_model`, the store's artifact is
exactly the pipeline handed back (it was either loaded from that
artifact, or just trained and saved as it). -/
theorem loadOk_artifact (st : Store) (p : FittedPipeline) (st2 : Store) (b : Bool)
    (h : loadOrCreateModel st = .ok (p, st2, b)) : st2.artifact = Artifact.good p := by
  obtain ⟨a, w⟩ := st
  cases a <;> cases w <;> simp [loadOrCreateModel] at h <;>
    obtain ⟨h1, h2, h3⟩ := h <;> subst h1 <;> subst h2 <;> rfl

/-- Every good artifact in a reachable store holds a pipeline fitted as
one unit: the program only ever writes the seed-trained pipeline. -/
theorem reach_artifact_fitted (st : Store) (hR : Reach st) :
    ∀ p, st.artifact = Artifact.good p → FittedTogether p := by
  induction hR with
  | coldAbsent w => intro p hp; cases hp
  | coldCorrupt w => intro p hp; cases hp
  | step st st2 q b hR2 hload ih =>
    intro p hp
    obtain ⟨a, w⟩ := st
    cases a with
    | good r =>
      simp [loadOrCreateModel] at hload
      obtain ⟨h1, h2, h3⟩ := hload
      subst h2
      exact ih p hp
    | absent =>
      cases w with
      | false => exact Except.noConfusion hload
      | true =>
        simp [loadOrCreateModel] at hload
        obtain ⟨h1, h2, h3⟩ := hload
        subst h2
        cases hp
        exact ⟨trainingTexts, trainingLabels, rfl, rfl⟩
    | corrupt =>
      cases w with
      | false => exact Except.noConfusion hload
      | true =>
        simp [loadOrCreateModel] at hload
        obtain ⟨h1, h2, h3⟩ := hload
        subst h2
        cases hp
        exact ⟨trainingTexts, trainingLabels, rfl, rfl⟩

/-- C9: in every reachable state, the persisted artifact and every
pipeline `load_or_create_model` hands out is a Vectorizer/Classifier
pair fitted together from one corpus and stored only as that single
unit. -/
theorem c9_single_unit (st : Store) (hR : Reach st) :
    (∀ p, st.artifact = Artifact.good p → FittedTogether p) ∧
    (∀ p st2 b, loadOrCreateModel st = .ok (p, st2, b) →
      FittedTogether p ∧ ∀ q, st2.artifact = Artifact.good q → FittedTogether q) := by
  refine ⟨reach_artifact_fitted st hR, fun p st2 b hload => ?_⟩
  have hst2 : Reach st2 := Reach.step st st2 p b hR hload
  have hart := loadOk_artifact st p st2 b hload
  exact ⟨reach_artifact_fitted st2 hst2 p hart, reach_artifact_fitted st2 hst2⟩

/-- Witness for C9: the store after a cold start holds the seed-trained
pipeline, and it is fitted as one unit. -/
theorem c9_single_unit_wit : FittedTogether seedPipeline := by
  have hload : loadOrCreateModel ⟨Artifact.absent, true⟩ =
      .ok (seedPipeline, ⟨Artifact.good seedPipeline, true⟩, true) := rfl
  have h := c9_single_unit ⟨Artifact.good seedPipeline, true⟩
    (Reach.step ⟨Artifact.absent, true⟩ ⟨Artifact.good seedPipeline, true⟩ seedPipeline true
      (Reach.coldAbsent true) hload)
  exact h.1 seedPipeline rfl
